import Mathlib

/-!
Verification of the Pandora Box submission-lifecycle engine.

The definitions below are a shallow embedding of the Django application in
`src/core`: `models.py` (the data model), `views.py` (the request handlers
`submission_create`, `submission_edit`, `submission_delete`,
`submission_review`) and `utils.py` (`log_activity`, `create_notification`,
`role_required`).  Machine state (database rows) is passed explicitly, the
current time is an explicit `Nat` parameter standing for `timezone.now()`,
and each handler's POST path is a pure function from its inputs to the
updated rows plus the side effects (audit-log entries and notifications) it
creates.
-/

namespace Pandora

/-- `User.ROLE_CHOICES` in models.py. -/
inductive Role where
  | MAC_OFFICER
  | MICAT_REVIEWER
  | ADMIN
deriving DecidableEq, Repr

/-- `Submission.STATUS_CHOICES` in models.py. -/
inductive Status where
  | PENDING
  | UNDER_REVIEW
  | APPROVED
  | DENIED
  | RETURNED
deriving DecidableEq, Repr

/-- The `MAC` model (agency): only the fields the lifecycle engine reads. -/
structure MAC where
  id : Nat
  acronym : String
  is_active : Bool
deriving DecidableEq, Repr

/-- The custom `User` model: role, optional MAC membership, active flag. -/
structure User where
  id : Nat
  role : Role
  mac : Option Nat
  is_active : Bool
deriving DecidableEq, Repr

/-- The `Submission` model.  Timestamps are `Option Nat` (null until set);
`priority` is the raw stored string (the view writes whatever the request
carries, defaulting to `"MEDIUM"`). -/
structure Submission where
  id : Nat
  title : String
  content_type : String
  description : String
  tags : String
  file : String
  mac : Nat
  submitted_by : Option Nat
  reviewed_by : Option Nat
  status : Status
  is_confidential : Bool
  is_published : Bool
  priority : String
  reviewer_comments : String
  denial_reason : String
  submitted_at : Nat
  reviewed_at : Option Nat
  approved_at : Option Nat
  published_at : Option Nat
deriving DecidableEq, Repr

/-- The `ActivityLog` model (audit trail): actor, action tag, optional
submission reference, description.  Created by `log_activity` in utils.py. -/
structure ActivityLog where
  user : Option Nat
  action : String
  submission : Option Nat
  description : String
deriving DecidableEq, Repr

/-- The `Notification` model: recipient, title, message, optional submission
reference, read flag.  Created by `create_notification` in utils.py. -/
structure Notification where
  user : Nat
  title : String
  message : String
  submission : Option Nat
  is_read : Bool
deriving DecidableEq, Repr

/-- The POST body of `submission_review` (views.py 1176-1179 and the
`publish` / `denial_reason` fields read inside the branches). -/
structure ReviewRequest where
  action : String
  reviewer_comments : String
  priority : String
  publish : Bool
  denial_reason : String
deriving DecidableEq, Repr

/-- The row plus the side effects one request handler produces. -/
structure ReviewEffects where
  sub : Submission
  logs : List ActivityLog
  notifs : List Notification
deriving DecidableEq, Repr

/-- Body of the POST branch of `submission_review` (views.py 1176-1261).
The reviewer fields are overwritten before the action is inspected; each of
the three recognised actions sets the status, logs one activity entry and
notifies the submitter when `submitted_by` is non-null; any other action
string falls through every branch and the updated row is still saved. -/
def submission_review_post (sub : Submission) (actor : User) (req : ReviewRequest)
    (now : Nat) : ReviewEffects :=
  let s1 : Submission := { sub with
    reviewed_by := some actor.id
    reviewed_at := some now
    reviewer_comments := req.reviewer_comments
    priority := req.priority }
  if req.action = "approve" then
    { sub := { s1 with
        status := Status.APPROVED
        approved_at := some now
        is_published := req.publish
        published_at := if req.publish then some now else s1.published_at }
      logs := [{ user := some actor.id, action := "SUBMISSION_APPROVED",
                 submission := some sub.id,
                 description := "Approved submission: " ++ sub.title }]
      notifs :=
        match sub.submitted_by with
        | some uid =>
          [{ user := uid, title := "Submission Approved! 🎉",
             message := "Your submission \x27" ++ sub.title ++
               "\x27 has been approved and published.",
             submission := some sub.id, is_read := false }]
        | none => [] }
  else if req.action = "return" then
    { sub := { s1 with status := Status.RETURNED }
      logs := [{ user := some actor.id, action := "SUBMISSION_RETURNED",
                 submission := some sub.id,
                 description := "Returned submission for edits: " ++ sub.title }]
      notifs :=
        match sub.submitted_by with
        | some uid =>
          [{ user := uid, title := "Submission Returned for Edits",
             message := "Please review and update your submission \x27" ++
               sub.title ++ "\x27. Comments: " ++ req.reviewer_comments,
             submission := some sub.id, is_read := false }]
        | none => [] }
  else if req.action = "deny" then
    { sub := { s1 with status := Status.DENIED, denial_reason := req.denial_reason }
      logs := [{ user := some actor.id, action := "SUBMISSION_DENIED",
                 submission := some sub.id,
                 description := "Denied submission: " ++ sub.title }]
      notifs :=
        match sub.submitted_by with
        | some uid =>
          [{ user := uid, title := "Submission Denied",
             message := "Your submission \x27" ++ sub.title ++
               "\x27 has been denied. Reason: " ++ req.denial_reason,
             submission := some sub.id, is_read := false }]
        | none => [] }
  else
    { sub := s1, logs := [], notifs := [] }

/-- Outcome of the `submission_review` view: either the
`micat_reviewer_required` decorator redirects (no mutation), or the POST
body runs. -/
inductive ReviewOutcome where
  | denied
  | done (effects : ReviewEffects)
deriving DecidableEq, Repr

/-- The `submission_review` view (views.py 1165-1262).  The decorator chain
`@login_required @micat_reviewer_required` runs
`role_required('MICAT_REVIEWER')` from utils.py 145-174: the body is reached
exactly when the authenticated actor's role is `MICAT_REVIEWER`; every other
role is redirected with a permission error and nothing is mutated. -/
def submission_review (sub : Submission) (actor : User) (req : ReviewRequest)
    (now : Nat) : ReviewOutcome :=
  if actor.role = Role.MICAT_REVIEWER then
    ReviewOutcome.done (submission_review_post sub actor req now)
  else
    ReviewOutcome.denied

/-- The POST body of `submission_create` / `submission_edit` (views.py
274-281 and 1059-1066).  `file` is `none` when no file was uploaded. -/
structure CreateForm where
  title : String
  content_type : String
  description : String
  tags : String
  is_confidential : Bool
  file : Option String
deriving DecidableEq, Repr

/-- Validation block of `submission_create` (views.py 283-291): complaints
collected in order, title then description then file. -/
def createErrors (form : CreateForm) : List String :=
  (if form.title = "" then ["Title is required"] else []) ++
  (if form.description = "" then ["Description is required"] else []) ++
  (if form.file = none then ["File is required"] else [])

/-- The new row built by `Submission.objects.create` in `submission_create`
(views.py 298-308): status `PENDING`, `submitted_at` set by `auto_now_add`,
every other workflow field at its model default. -/
def newSubmission (actor : User) (macId : Nat) (form : CreateForm)
    (newId now : Nat) : Submission :=
  { id := newId
    title := form.title
    content_type := form.content_type
    description := form.description
    tags := form.tags
    file := form.file.getD ""
    mac := macId
    submitted_by := some actor.id
    reviewed_by := none
    status := Status.PENDING
    is_confidential := form.is_confidential
    is_published := false
    priority := "MEDIUM"
    reviewer_comments := ""
    denial_reason := ""
    submitted_at := now
    reviewed_at := none
    approved_at := none
    published_at := none }

/-- Is this user an active MICAT reviewer?  The filter
`User.objects.filter(role=\x27MICAT_REVIEWER\x27, is_active=True)` in
views.py 320. -/
def isActiveReviewer (u : User) : Bool :=
  decide (u.role = Role.MICAT_REVIEWER) && u.is_active

/-- Fan-out loop of `submission_create` (views.py 319-327): one
`create_notification` per active MICAT reviewer. -/
def newSubmissionNotifs (users : List User) (macAcronym : String)
    (title : String) (newId : Nat) : List Notification :=
  (users.filter isActiveReviewer).map fun r =>
    { user := r.id, title := "New Submission",
      message := macAcronym ++ " submitted: " ++ title,
      submission := some newId, is_read := false }

/-- Outcome of the `submission_create` view. -/
inductive CreateOutcome where
  | permissionDenied
  | noMac
  | validationError (errors : List String)
  | created (sub : Submission) (log : ActivityLog) (notifs : List Notification)
deriving DecidableEq, Repr

/-- The `submission_create` view (views.py 252-330).  The
`@mac_officer_required` decorator admits exactly role `MAC_OFFICER`; the
body then rejects an actor with no MAC assigned (`if not user.mac`), runs
the field validation, and on success creates the row, writes one
`SUBMISSION_CREATED` audit entry and notifies every active MICAT reviewer.
The MAC's `is_active` flag is never consulted. -/
def submission_create (users : List User) (actor : User) (macAcronym : String)
    (form : CreateForm) (newId now : Nat) : CreateOutcome :=
  if actor.role ≠ Role.MAC_OFFICER then
    CreateOutcome.permissionDenied
  else
    match actor.mac with
    | none => CreateOutcome.noMac
    | some macId =>
      if createErrors form ≠ [] then
        CreateOutcome.validationError (createErrors form)
      else
        CreateOutcome.created (newSubmission actor macId form newId now)
          { user := some actor.id, action := "SUBMISSION_CREATED",
            submission := some newId,
            description := "Created submission: " ++ form.title }
          (newSubmissionNotifs users macAcronym form.title newId)

/-- `Submission.can_be_edited_by` (models.py 352-358): admins always; a MAC
officer only on their own submission and only while the status is `PENDING`
or `RETURNED`; everyone else never. -/
def can_be_edited_by (sub : Submission) (user : User) : Bool :=
  if user.role = Role.ADMIN then
    true
  else if user.role = Role.MAC_OFFICER ∧ sub.submitted_by = some user.id then
    decide (sub.status = Status.PENDING ∨ sub.status = Status.RETURNED)
  else
    false

/-- Outcome of the `submission_edit` view. -/
inductive EditOutcome where
  | permissionDenied
  | validationError (errors : List String)
  | edited (sub : Submission) (log : ActivityLog)
deriving DecidableEq, Repr

/-- Validation block of `submission_edit` (views.py 1069-1073): on edit
only title and description are required, the file is optional. -/
def editErrors (form : CreateForm) : List String :=
  (if form.title = "" then ["Title is required"] else []) ++
  (if form.description = "" then ["Description is required"] else [])

/-- Field updates of `submission_edit` (views.py 1080-1088): the content
fields are overwritten from the form, the file only when a new one was
uploaded; the workflow fields are untouched. -/
def editFields (sub : Submission) (form : CreateForm) : Submission :=
  { sub with
    title := form.title
    content_type := form.content_type
    description := form.description
    tags := form.tags
    is_confidential := form.is_confidential
    file := match form.file with | some f => f | none => sub.file }

/-- The row `submission_edit` saves (views.py 1090-1094): after the field
updates, a `RETURNED` status is reset to `PENDING`. -/
def editedSubmission (sub : Submission) (form : CreateForm) : Submission :=
  if (editFields sub form).status = Status.RETURNED then
    { editFields sub form with status := Status.PENDING }
  else
    editFields sub form

/-- The `submission_edit` view (views.py 1041-1106): gate on
`can_be_edited_by`, validate title and description, save the updated row,
and write one `SUBMISSION_UPDATED` audit entry. -/
def submission_edit (sub : Submission) (actor : User) (form : CreateForm) :
    EditOutcome :=
  if can_be_edited_by sub actor = false then
    EditOutcome.permissionDenied
  else if editErrors form ≠ [] then
    EditOutcome.validationError (editErrors form)
  else
    EditOutcome.edited (editedSubmission sub form)
      { user := some actor.id, action := "SUBMISSION_UPDATED",
        submission := some sub.id,
        description := "Updated submission: " ++ form.title }

/-- The stored rows the lifecycle engine touches. -/
structure DB where
  submissions : List Submission
  logs : List ActivityLog
  notifications : List Notification
  macs : List MAC
deriving DecidableEq, Repr

/-- Outcome of the `submission_delete` view. -/
inductive DeleteOutcome where
  | notFound
  | permissionDenied
  | deleted
deriving DecidableEq, Repr

/-- The audit entry `submission_delete` writes before deleting (views.py
1144-1150): action `SUBMISSION_UPDATED` (no delete action tag exists),
`submission=None`, the row identified only by descriptive text. -/
def deleteLogEntry (db : DB) (actor : User) (sub : Submission) : ActivityLog :=
  { user := some actor.id, action := "SUBMISSION_UPDATED", submission := none,
    description := "Deleted submission: " ++ sub.title ++ " from " ++
      (((db.macs.find? fun m => m.id == sub.mac).map MAC.acronym).getD "") }

/-- The `submission_delete` view (views.py 1116-1163) together with the
database-level cascades declared in models.py: `ActivityLog.submission` and
`Notification.submission` both carry `on_delete=CASCADE`, so deleting the
submission row also deletes every audit-log row and notification row whose
submission reference points at it.  The fresh deletion log entry survives
because its submission reference is `None`. -/
def submission_delete (db : DB) (actor : User) (pk : Nat) : DB × DeleteOutcome :=
  match db.submissions.find? fun s => s.id == pk with
  | none => (db, DeleteOutcome.notFound)
  | some sub =>
    if actor.role = Role.ADMIN ∨
        (sub.submitted_by = some actor.id ∧ sub.status = Status.PENDING) then
      ({ submissions := db.submissions.filter fun s => !(s.id == pk)
         logs := (db.logs ++ [deleteLogEntry db actor sub]).filter
           fun l => !(l.submission == some pk)
         notifications := db.notifications.filter fun n => !(n.submission == some pk)
         macs := db.macs },
       DeleteOutcome.deleted)
    else
      (db, DeleteOutcome.permissionDenied)

/-- Interleaving of two review requests on the same stored row: both
handlers issue `get_object_or_404` before either saves, so both in-memory
copies start from the same snapshot; `Model.save()` then writes every field
of each copy, the first save followed by the second, so the row ends as the
second committed handler's copy.  `submission_review` re-checks nothing
before saving, so no outcome other than the two handlers' own outcomes can
arise. -/
def concurrent_review (sub : Submission) (a1 a2 : User)
    (r1 r2 : ReviewRequest) (t1 t2 : Nat) :
    ReviewOutcome × ReviewOutcome × Submission :=
  let o1 := submission_review sub a1 r1 t1
  let o2 := submission_review sub a2 r2 t2
  (o1, o2,
    match o2 with
    | ReviewOutcome.done e => e.sub
    | ReviewOutcome.denied =>
      match o1 with
      | ReviewOutcome.done e => e.sub
      | ReviewOutcome.denied => sub)

/-! Concrete fixtures used by witnesses and counterexamples. -/

/-- An active agency. -/
def macA : MAC := { id := 1, acronym := "MOH", is_active := true }

/-- A deactivated agency. -/
def macB : MAC := { id := 2, acronym := "MOE", is_active := false }

/-- An officer of the active agency. -/
def officerO : User :=
  { id := 10, role := Role.MAC_OFFICER, mac := some 1, is_active := true }

/-- An officer of the deactivated agency. -/
def officerB : User :=
  { id := 11, role := Role.MAC_OFFICER, mac := some 2, is_active := true }

/-- An active reviewer. -/
def reviewerR1 : User :=
  { id := 20, role := Role.MICAT_REVIEWER, mac := none, is_active := true }

/-- A second active reviewer. -/
def reviewerR2 : User :=
  { id := 21, role := Role.MICAT_REVIEWER, mac := none, is_active := true }

/-- A deactivated reviewer. -/
def reviewerOff : User :=
  { id := 22, role := Role.MICAT_REVIEWER, mac := none, is_active := false }

/-- An administrator. -/
def adminU : User :=
  { id := 30, role := Role.ADMIN, mac := none, is_active := true }

/-- A pending submission by `officerO`. -/
def baseSub : Submission :=
  { id := 1, title := "Flood Update", content_type := "PRESS_RELEASE",
    description := "Situation report", tags := "flood, weather",
    file := "flood.pdf", mac := 1, submitted_by := some 10,
    reviewed_by := none, status := Status.PENDING, is_confidential := false,
    is_published := false, priority := "MEDIUM", reviewer_comments := "",
    denial_reason := "", submitted_at := 1, reviewed_at := none,
    approved_at := none, published_at := none }

/-- A submission already in status `DENIED`. -/
def deniedSub : Submission := { baseSub with status := Status.DENIED }

/-- A submission whose submitter was deleted (`submitted_by` nulled by
`on_delete=SET_NULL`). -/
def orphanSub : Submission := { baseSub with submitted_by := none }

/-- A review request approving without publishing. -/
def approveReq : ReviewRequest :=
  { action := "approve", reviewer_comments := "ok", priority := "HIGH",
    publish := false, denial_reason := "" }

/-- A review request approving and publishing. -/
def approvePubReq : ReviewRequest := { approveReq with publish := true }

/-- A review request denying. -/
def denyReq : ReviewRequest :=
  { action := "deny", reviewer_comments := "", priority := "MEDIUM",
    publish := false, denial_reason := "Incomplete data" }

/-- A review request whose action is none of approve, return, deny. -/
def escalateReq : ReviewRequest :=
  { action := "escalate", reviewer_comments := "note", priority := "LOW",
    publish := true, denial_reason := "" }

/-- A valid create/edit form. -/
def validForm : CreateForm :=
  { title := "Flood Update", content_type := "PRESS_RELEASE",
    description := "Situation report", tags := "flood, weather",
    is_confidential := false, file := some "flood.pdf" }

/-! ## C1 — review transitions and the status guard -/

/-- C1 counterexample: the claim says a review action changes the status
only from `PENDING` or `UNDER_REVIEW`, and that a `DENIED` submission
cannot be moved to `APPROVED`.  On the code the `submission_review` body
never inspects the current status: an approve action on a `DENIED`
submission commits and moves it to `APPROVED`. -/
theorem c1_counterexample :
    deniedSub.status = Status.DENIED ∧
    submission_review deniedSub reviewerR1 approveReq 5 =
      ReviewOutcome.done (submission_review_post deniedSub reviewerR1 approveReq 5) ∧
    (submission_review_post deniedSub reviewerR1 approveReq 5).sub.status =
      Status.APPROVED := by
  refine ⟨rfl, ?_, rfl⟩
  decide

/-- C1 (amended): a review action performed by a `MICAT_REVIEWER` always
reaches the POST body, and the body sets the status purely from the action
string — `approve` to `APPROVED`, `return` to `RETURNED`, `deny` to
`DENIED` — with no guard whatsoever on the current status. -/
theorem c1_review_unguarded (sub : Submission) (actor : User)
    (req : ReviewRequest) (now : Nat)
    (hrole : actor.role = Role.MICAT_REVIEWER) :
    submission_review sub actor req now =
      ReviewOutcome.done (submission_review_post sub actor req now) ∧
    (req.action = "approve" →
      (submission_review_post sub actor req now).sub.status = Status.APPROVED) ∧
    (req.action = "return" →
      (submission_review_post sub actor req now).sub.status = Status.RETURNED) ∧
    (req.action = "deny" →
      (submission_review_post sub actor req now).sub.status = Status.DENIED) := by
  refine ⟨by simp [submission_review, hrole], ?_, ?_, ?_⟩ <;>
    intro h <;> simp [submission_review_post, h]

/-- C1 witness: the amended theorem applied to the `DENIED` fixture. -/
theorem c1_review_unguarded_witness :
    (submission_review_post deniedSub reviewerR1 approveReq 5).sub.status =
      Status.APPROVED :=
  (c1_review_unguarded deniedSub reviewerR1 approveReq 5 rfl).2.1 rfl

/-! ## C2 — which roles may review -/

/-- C2 counterexample: the claim says an `ADMIN` may perform review
transitions.  The view is gated by `role_required(\x27MICAT_REVIEWER\x27)`,
so an admin is redirected with a permission error and nothing is mutated. -/
theorem c2_counterexample :
    adminU.role = Role.ADMIN ∧
    submission_review baseSub adminU approveReq 5 = ReviewOutcome.denied := by
  exact ⟨rfl, rfl⟩

/-- C2 (amended): a review request reaches the state machine if and only if
the actor's role is `MICAT_REVIEWER`; `ADMIN` and `MAC_OFFICER` actors are
both denied by the decorator. -/
theorem c2_review_roles (sub : Submission) (actor : User) (req : ReviewRequest)
    (now : Nat) :
    submission_review sub actor req now ≠ ReviewOutcome.denied ↔
      actor.role = Role.MICAT_REVIEWER := by
  by_cases h : actor.role = Role.MICAT_REVIEWER <;>
    simp [submission_review, h]

/-- C2 witness: the amended theorem applied to a reviewer actor. -/
theorem c2_review_roles_witness :
    submission_review baseSub reviewerR1 approveReq 5 ≠ ReviewOutcome.denied ↔
      reviewerR1.role = Role.MICAT_REVIEWER :=
  c2_review_roles baseSub reviewerR1 approveReq 5

/-! ## C10 — frame effect of an unrecognised review action -/

/-- C10: a review request whose action string is none of approve, return,
deny still overwrites and persists `reviewed_by`, `reviewed_at`,
`reviewer_comments` and `priority`, leaves the status (and every other
field) unchanged, and produces no audit entry and no notification. -/
theorem c10_unknown_action_frame (sub : Submission) (actor : User)
    (req : ReviewRequest) (now : Nat)
    (hrole : actor.role = Role.MICAT_REVIEWER)
    (h1 : req.action ≠ "approve") (h2 : req.action ≠ "return")
    (h3 : req.action ≠ "deny") :
    submission_review sub actor req now =
      ReviewOutcome.done
        { sub := { sub with
            reviewed_by := some actor.id
            reviewed_at := some now
            reviewer_comments := req.reviewer_comments
            priority := req.priority }
          logs := [], notifs := [] } := by
  simp [submission_review, hrole, submission_review_post, h1, h2, h3]

/-- C10 witness: the frame theorem applied to the fixture request whose
action is the unrecognised string escalate. -/
theorem c10_unknown_action_frame_witness :
    submission_review baseSub reviewerR1 escalateReq 5 =
      ReviewOutcome.done
        { sub := { baseSub with
            reviewed_by := some reviewerR1.id
            reviewed_at := some 5
            reviewer_comments := escalateReq.reviewer_comments
            priority := escalateReq.priority }
          logs := [], notifs := [] } :=
  c10_unknown_action_frame baseSub reviewerR1 escalateReq 5 rfl
    (by decide) (by decide) (by decide)

/-! ## C3 — audit entries and the submission-delete cascade -/

/-- The audit entry written when `baseSub` was created. -/
def createdLog : ActivityLog :=
  { user := some 10, action := "SUBMISSION_CREATED", submission := some 1,
    description := "Created submission: Flood Update" }

/-- A database holding `baseSub` and its creation audit entry. -/
def db0 : DB :=
  { submissions := [baseSub], logs := [createdLog], notifications := [],
    macs := [macA] }

/-- C3: the `SUBMISSION_CREATED` audit entry referencing submission 1 is in
the database; an admin deletes submission 1; the delete commits, and the
`on_delete=CASCADE` declared on `ActivityLog.submission` removes the audit
entry together with the submission — contradicting the claim that every
audit entry ever written is still present after any sequence of
operations. -/
theorem c3_cascade_deletes_audit :
    createdLog ∈ db0.logs ∧
    (submission_delete db0 adminU 1).2 = DeleteOutcome.deleted ∧
    createdLog ∉ (submission_delete db0 adminU 1).1.logs := by
  decide

/-! ## C4 — creating with an inactive MAC -/

/-- Did the create view commit a new row? -/
def isCreated : CreateOutcome → Bool
  | CreateOutcome.created _ _ _ => true
  | _ => false

/-- C4 counterexample: `officerB` is assigned to `macB`, whose `is_active`
is false; the claim says creation must be denied, but the view creates the
submission — it checks only that a MAC is assigned, never its active
flag. -/
theorem c4_counterexample :
    macB.is_active = false ∧
    officerB.mac = some macB.id ∧
    isCreated (submission_create [reviewerR1] officerB macB.acronym
      validForm 7 3) = true := by
  decide

/-- C4 (amended): a MAC_OFFICER assigned to any MAC — active or not — who
submits a valid form gets a submission created; the MAC's `is_active` flag
is never consulted, so even an officer whose MAC is deactivated can
create. -/
theorem c4_inactive_mac_creates (users : List User) (actor : User) (m : MAC)
    (form : CreateForm) (newId now : Nat)
    (hrole : actor.role = Role.MAC_OFFICER) (hmac : actor.mac = some m.id)
    (hinact : m.is_active = false)
    (ht : form.title ≠ "") (hd : form.description ≠ "") (hf : form.file ≠ none) :
    isCreated (submission_create users actor m.acronym form newId now) = true := by
  have herr : createErrors form = [] := by
    simp [createErrors, ht, hd, hf]
  unfold submission_create
  rw [if_neg fun hc => hc hrole, hmac]
  simp [herr, isCreated]

/-- C4 witness: the amended theorem applied to the officer of the
deactivated agency `macB`. -/
theorem c4_inactive_mac_creates_witness :
    isCreated (submission_create [reviewerR1] officerB macB.acronym
      validForm 7 3) = true :=
  c4_inactive_mac_creates [reviewerR1] officerB macB validForm 7 3 rfl rfl rfl
    (by decide) (by decide) (by decide)

/-! ## C5 — effect counts of the review transitions -/

/-- C5 counterexample: `orphanSub` has a null `submitted_by` (the officer
account was deleted, `on_delete=SET_NULL`); approving it writes one audit
entry but zero notifications, contradicting the claim that every review
transition creates exactly one notification, never zero. -/
theorem c5_counterexample :
    orphanSub.submitted_by = none ∧
    (submission_review_post orphanSub reviewerR1 approveReq 5).logs.length = 1 ∧
    (submission_review_post orphanSub reviewerR1 approveReq 5).notifs.length = 0 := by
  decide

/-- C5 (amended): each of approve, return and deny writes exactly one audit
entry; it creates exactly one notification — addressed to the submitting
officer — when `submitted_by` is non-null, and zero notifications when
`submitted_by` is null. -/
theorem c5_effect_counts (sub : Submission) (actor : User) (req : ReviewRequest)
    (now : Nat)
    (h : req.action = "approve" ∨ req.action = "return" ∨ req.action = "deny") :
    (submission_review_post sub actor req now).logs.length = 1 ∧
    ((submission_review_post sub actor req now).notifs.length =
      match sub.submitted_by with
      | some _ => 1
      | none => 0) ∧
    (∀ n ∈ (submission_review_post sub actor req now).notifs,
      some n.user = sub.submitted_by) := by
  rcases h with h | h | h <;>
    rcases hs : sub.submitted_by with _ | uid <;>
      simp [submission_review_post, h, hs]

/-- C5 witness: the amended theorem applied to the pending fixture with the
deny request. -/
theorem c5_effect_counts_witness :
    (submission_review_post baseSub reviewerR1 denyReq 5).logs.length = 1 :=
  (c5_effect_counts baseSub reviewerR1 denyReq 5 (Or.inr (Or.inr rfl))).1

/-! ## C6 — `approved_at` / `published_at` discipline -/

/-- `baseSub` after approve-with-publish at time 5. -/
def afterPub : Submission :=
  (submission_review_post baseSub reviewerR1 approvePubReq 5).sub

/-- `afterPub` after a second reviewer denies it at time 6 (possible because
the review body has no status guard). -/
def afterDeny : Submission :=
  (submission_review_post afterPub reviewerR2 denyReq 6).sub

/-- C6 counterexample: the claim says that across every sequence of
transitions `published_at` is non-null only when `is_published` is true and
the status is `APPROVED`.  After approve-with-publish followed by deny, the
status is `DENIED` while `published_at` is still set: deny never clears
`published_at` or `is_published`. -/
theorem c6_counterexample :
    afterDeny.status = Status.DENIED ∧
    afterDeny.is_published = true ∧
    afterDeny.published_at = some 5 := by
  decide

/-- C6 (amended): approving a submission whose `published_at` is null with
publish = false sets `approved_at` and leaves `published_at` null.
`published_at` is assigned (to now) by an approve-with-publish action and
by nothing else — in particular a review action never clears it and an
officer edit never touches it — so after later transitions it can remain
non-null while the status is no longer `APPROVED` or `is_published` is
false. -/
theorem c6_published_at_discipline (sub : Submission) (actor : User)
    (req : ReviewRequest) (now : Nat) :
    ((req.action = "approve" ∧ req.publish = false ∧ sub.published_at = none) →
      ((submission_review_post sub actor req now).sub.approved_at = some now ∧
       (submission_review_post sub actor req now).sub.published_at = none)) ∧
    ((submission_review_post sub actor req now).sub.published_at =
      if req.action = "approve" ∧ req.publish = true then some now
      else sub.published_at) ∧
    (∀ form s2 log, submission_edit sub actor form = EditOutcome.edited s2 log →
      s2.published_at = sub.published_at) := by
  refine ⟨?_, ?_, ?_⟩
  · rintro ⟨ha, hp, hn⟩
    simp [submission_review_post, ha, hp, hn]
  · by_cases ha : req.action = "approve"
    · by_cases hp : req.publish = true <;>
        simp [submission_review_post, ha, hp]
    · have : ¬(req.action = "approve" ∧ req.publish = true) := fun hc => ha hc.1
      rw [if_neg this]
      by_cases hr : req.action = "return" <;>
        by_cases hd : req.action = "deny" <;>
          simp [submission_review_post, ha, hr, hd]
  · intro form s2 log h
    unfold submission_edit at h
    split at h
    · exact absurd h (by simp)
    · split at h
      · exact absurd h (by simp)
      · rw [EditOutcome.edited.injEq] at h
        rcases h with ⟨h, -⟩
        subst h
        unfold editedSubmission
        split <;> rfl

/-- C6 witness: approve with publish = false on the pending fixture sets
`approved_at` at time 5 and leaves `published_at` null. -/
theorem c6_published_at_discipline_witness :
    (submission_review_post baseSub reviewerR1 approveReq 5).sub.approved_at =
      some 5 ∧
    (submission_review_post baseSub reviewerR1 approveReq 5).sub.published_at =
      none :=
  (c6_published_at_discipline baseSub reviewerR1 approveReq 5).1 ⟨rfl, rfl, rfl⟩

/-! ## C7 — the officer edit operation -/

/-- A pending submission whose submitter account now has the reviewer
role. -/
def subByReviewer : Submission := { baseSub with submitted_by := some 20 }

/-- A returned submission by `officerO`. -/
def returnedSub : Submission := { baseSub with status := Status.RETURNED }

/-- C7 counterexample: the claim says the edit is permitted exactly when
the actor is the submitter and the status is `PENDING` or `RETURNED` (or
the actor is an admin).  `can_be_edited_by` additionally requires the
submitter branch to hold role `MAC_OFFICER`: a submitter whose role is
`MICAT_REVIEWER` is denied on their own pending submission. -/
theorem c7_counterexample :
    subByReviewer.submitted_by = some reviewerR1.id ∧
    subByReviewer.status = Status.PENDING ∧
    reviewerR1.role ≠ Role.ADMIN ∧
    can_be_edited_by subByReviewer reviewerR1 = false ∧
    submission_edit subByReviewer reviewerR1 validForm =
      EditOutcome.permissionDenied := by
  decide

/-- C7 (amended): the edit is permitted exactly when the actor is an
`ADMIN`, or is a `MAC_OFFICER` who is the submitter while the status is
`PENDING` or `RETURNED` (a submitter holding any other role is denied);
a successful edit of a `RETURNED` submission resets the status to
`PENDING`, an edit in any other status leaves the status unchanged, and
every successful edit records a `SUBMISSION_UPDATED` audit entry. -/
theorem c7_edit_permission (sub : Submission) (actor : User) (form : CreateForm) :
    (can_be_edited_by sub actor = true ↔
      (actor.role = Role.ADMIN ∨
       (actor.role = Role.MAC_OFFICER ∧ sub.submitted_by = some actor.id ∧
        (sub.status = Status.PENDING ∨ sub.status = Status.RETURNED)))) ∧
    (∀ s2 log, submission_edit sub actor form = EditOutcome.edited s2 log →
      (s2.status =
        if sub.status = Status.RETURNED then Status.PENDING else sub.status) ∧
      log.action = "SUBMISSION_UPDATED") := by
  constructor
  · unfold can_be_edited_by
    split
    · rename_i h
      simp [h]
    · split
      · rename_i hna hsub
        simp [hna, hsub, decide_eq_true_iff]
      · rename_i hna hnsub
        constructor
        · intro h
          exact absurd h (by simp)
        · rintro (h | ⟨h1, h2, h3⟩)
          · exact absurd h hna
          · exact absurd ⟨h1, h2⟩ hnsub
  · intro s2 log h
    unfold submission_edit at h
    split at h
    · exact absurd h (by simp)
    · split at h
      · exact absurd h (by simp)
      · rw [EditOutcome.edited.injEq] at h
        rcases h with ⟨hs, hl⟩
        subst hs
        subst hl
        refine ⟨?_, rfl⟩
        unfold editedSubmission
        by_cases hr : sub.status = Status.RETURNED <;>
          simp [editFields, hr]

/-- C7 witness: the permission characterisation applied to `officerO` and
the pending fixture, and the status reset applied to the returned
fixture. -/
theorem c7_edit_permission_witness :
    can_be_edited_by baseSub officerO = true ↔
      (officerO.role = Role.ADMIN ∨
       (officerO.role = Role.MAC_OFFICER ∧
        baseSub.submitted_by = some officerO.id ∧
        (baseSub.status = Status.PENDING ∨ baseSub.status = Status.RETURNED))) :=
  (c7_edit_permission baseSub officerO validForm).1

/-! ## C8 — creation side effects -/

/-- A string trivially contains itself (empty prefix and suffix). -/
theorem title_contains_self :
    ("New Submission" : String) = "" ++ "New Submission" ++ "" := by
  decide

/-- C8: when an officer assigned to an active MAC submits a valid form, the
created submission has status `PENDING` with `submitted_at` set to the
current time, every active `MICAT_REVIEWER` receives a notification whose
title contains the text New Submission, and every notification created goes
to an active reviewer — no inactive reviewer and no other user receives
one. -/
theorem c8_create_side_effects (users : List User) (actor : User) (m : MAC)
    (form : CreateForm) (newId now : Nat)
    (hrole : actor.role = Role.MAC_OFFICER) (hmac : actor.mac = some m.id)
    (hact : m.is_active = true)
    (ht : form.title ≠ "") (hd : form.description ≠ "") (hf : form.file ≠ none) :
    ∃ sub log notifs,
      submission_create users actor m.acronym form newId now =
        CreateOutcome.created sub log notifs ∧
      sub.status = Status.PENDING ∧
      sub.submitted_at = now ∧
      (∀ u ∈ users, u.role = Role.MICAT_REVIEWER → u.is_active = true →
        ∃ n ∈ notifs, n.user = u.id ∧
          ∃ s1 s2, n.title = s1 ++ "New Submission" ++ s2) ∧
      (∀ n ∈ notifs, ∃ u ∈ users,
        u.role = Role.MICAT_REVIEWER ∧ u.is_active = true ∧ n.user = u.id) := by
  have herr : createErrors form = [] := by
    simp [createErrors, ht, hd, hf]
  refine ⟨newSubmission actor m.id form newId now,
    { user := some actor.id, action := "SUBMISSION_CREATED",
      submission := some newId,
      description := "Created submission: " ++ form.title },
    newSubmissionNotifs users m.acronym form.title newId, ?_, rfl, rfl, ?_, ?_⟩
  · unfold submission_create
    rw [if_neg fun hc => hc hrole, hmac]
    simp [herr]
  · intro u hu hur hua
    refine ⟨_, List.mem_map_of_mem _ (List.mem_filter.mpr ⟨hu, ?_⟩),
      rfl, "", "", title_contains_self⟩
    simp [isActiveReviewer, hur, hua]
  · intro n hn
    rcases List.mem_map.mp hn with ⟨r, hr, rfl⟩
    rcases List.mem_filter.mp hr with ⟨hru, hpred⟩
    have hp : r.role = Role.MICAT_REVIEWER ∧ r.is_active = true := by
      simpa [isActiveReviewer] using hpred
    exact ⟨r, hru, hp.1, hp.2, rfl⟩

/-- C8 witness: the side-effect theorem applied to a user table holding an
active reviewer, a deactivated reviewer and the officer. -/
theorem c8_create_side_effects_witness :
    ∃ sub log notifs,
      submission_create [reviewerR1, reviewerOff, officerO] officerO
          macA.acronym validForm 7 3 =
        CreateOutcome.created sub log notifs ∧
      sub.status = Status.PENDING ∧
      sub.submitted_at = 3 ∧
      (∀ u ∈ [reviewerR1, reviewerOff, officerO],
        u.role = Role.MICAT_REVIEWER → u.is_active = true →
        ∃ n ∈ notifs, n.user = u.id ∧
          ∃ s1 s2, n.title = s1 ++ "New Submission" ++ s2) ∧
      (∀ n ∈ notifs, ∃ u ∈ [reviewerR1, reviewerOff, officerO],
        u.role = Role.MICAT_REVIEWER ∧ u.is_active = true ∧ n.user = u.id) :=
  c8_create_side_effects [reviewerR1, reviewerOff, officerO] officerO macA
    validForm 7 3 rfl rfl rfl (by decide) (by decide) (by decide)

/-! ## C9 — two reviewers racing on the same pending submission -/

/-- C9: with both handlers loading the same `PENDING` snapshot before either
saves, reviewer 1 denying and reviewer 2 approving, both requests succeed —
neither receives any error, conflict or otherwise — and the row ends as
reviewer 2's copy: reviewer 1's committed status and reviewer fields are
silently overwritten. -/
theorem c9_lost_update :
    baseSub.status = Status.PENDING ∧
    (concurrent_review baseSub reviewerR1 reviewerR2 denyReq approveReq 5 6).1 =
      ReviewOutcome.done (submission_review_post baseSub reviewerR1 denyReq 5) ∧
    (submission_review_post baseSub reviewerR1 denyReq 5).sub.status =
      Status.DENIED ∧
    (concurrent_review baseSub reviewerR1 reviewerR2 denyReq approveReq 5 6).2.1 =
      ReviewOutcome.done (submission_review_post baseSub reviewerR2 approveReq 6) ∧
    (concurrent_review baseSub reviewerR1 reviewerR2 denyReq approveReq 5 6).2.2.status =
      Status.APPROVED ∧
    (concurrent_review baseSub reviewerR1 reviewerR2 denyReq approveReq 5 6).2.2.reviewed_by =
      some reviewerR2.id ∧
    (concurrent_review baseSub reviewerR1 reviewerR2 denyReq approveReq 5 6).2.2.reviewed_by ≠
      some reviewerR1.id := by
  decide

end Pandora
